import Mathlib

set_option maxRecDepth 100000

/-!
Verification of `movies-center/entertainment_center.py`.

The program constructs six movie records via `media.Movie(...)`, collects
them into the list `movies`, and calls `fresh_tomatoes.open_movies_page(movies)`
once.  The modules `media` and `fresh_tomatoes` are external collaborators:
we model the `Movie` constructor from the specification (a value object
exposing four string fields, no validation) and the renderer call as an
observable event recording the sequence it receives.

The script itself is embedded as a straight-line statement program executed
over an explicit interpreter state, so that object identity (allocation
ids), ordering of the rendered sequence, and the number of renderer
invocations are all statable.
-/

/-- Modelled from the spec: `media.Movie` (module `media`, not present in the
given sources) — per §3 and §4.1 a value object exposing four string fields
by name: `title`, `storyline`, `poster_image_url`, `trailer_youtube_url`. -/
structure Movie where
  title : String
  storyline : String
  poster_image_url : String
  trailer_youtube_url : String
deriving Repr, DecidableEq

/-- A runtime object: an allocation identity paired with a record value, so
that two separately constructed but value-equal records remain
distinguishable, as Python objects are. -/
structure Obj where
  id : Nat
  val : Movie
deriving Repr, DecidableEq

/-- The statement forms occurring in `entertainment_center.py`: binding a
name to a freshly constructed `media.Movie` with four positional string
arguments, binding a name to a list of previously bound names, and the call
`fresh_tomatoes.open_movies_page` on a bound list. -/
inductive Stmt where
  | assignMovie (name title storyline poster trailer : String)
  | assignList (name : String) (elems : List String)
  | callOpenMoviesPage (arg : String)
deriving Repr, DecidableEq

/-- Interpreter state: movie variables, list variables, the trace of
sequences passed to the renderer, and the next allocation id. -/
structure PyState where
  env : List (String × Obj)
  listEnv : List (String × List Obj)
  rendererCalls : List (List Obj)
  nextId : Nat
deriving Repr, DecidableEq

/-- Execute one statement.  Constructing a movie always succeeds (the
modelled constructor performs no validation); looking up an unbound name is
the only error, mirroring a Python `NameError`.  Modelled from the spec:
`fresh_tomatoes.open_movies_page` (not present in the given sources) is
consumed only through its call event, per §4.2 — no return value is used —
so the call is recorded as one entry in `rendererCalls`. -/
def execStmt (st : PyState) : Stmt → Except String PyState
  | .assignMovie n t s p y =>
      .ok { st with env := (n, ⟨st.nextId, Movie.mk t s p y⟩) :: st.env,
                    nextId := st.nextId + 1 }
  | .assignList n elems => do
      let objs ← elems.mapM fun v =>
        match List.lookup v st.env with
        | some o => Except.ok o
        | none => Except.error v
      Except.ok { st with listEnv := (n, objs) :: st.listEnv }
  | .callOpenMoviesPage v =>
      match List.lookup v st.listEnv with
      | some xs => .ok { st with rendererCalls := st.rendererCalls ++ [xs] }
      | none => .error v

/-- Execute a straight-line program, stopping at the first error. -/
def execProgram (st : PyState) : List Stmt → Except String PyState
  | [] => .ok st
  | s :: rest => do execProgram (← execStmt st s) rest

/-- The module body of `entertainment_center.py`, statement by statement. -/
def entertainmentCenter : List Stmt :=
  [ .assignMovie "toy_story"
      "Toy Story"
      "A story of a boy and his toys that come to life"
      "http://upload.wikimedia.org/wikipedia/en/1/13/Toy_Story.jpg"
      "https://www.youtube.com/watch?v=KYz2wyBy3kc",
    .assignMovie "avatar"
      "Avatar"
      "A marine on an alien planet"
      "http://upload.wikimedia.org/wikipedia/en/b/b0/Avatar-Teaser-Poster.jpg"
      "https://www.youtube.com/watch?v=cRdxXPV9GNQ",
    .assignMovie "rurouni_kenshin"
      "Rurouni Kenshin"
      "The story of a wanderer named Himura Kenshin, formerly known as the assassin Hitokiri Battosai"
      "http://upload.wikimedia.org/wikipedia/en/f/f6/Rurouni_Kenshin_%282012_film%29_poster.jpg"
      "https://www.youtube.com/watch?v=lc_JmcRxdx8",
    .assignMovie "hunger_games"
      "The Hunger Games"
      "A real reality show"
      "http://upload.wikimedia.org/wikipedia/en/4/42/HungerGamesPoster.jpg"
      "https://www.youtube.com/watch?v=4S9a5V9ODuY",
    .assignMovie "taken"
      "Taken"
      "A former CIA operative named Bryan Mills who sets about tracking down his daughter after she is kidnapped by human traffickers for sexual slavery while travelling in France"
      "http://upload.wikimedia.org/wikipedia/en/e/ed/Taken_film_poster.jpg"
      "https://www.youtube.com/watch?v=wCbDUREBwUg",
    .assignMovie "gone_girl"
      "Gone Girl"
      "A mystery about a man whose wife has gone missing and the events after"
      "http://upload.wikimedia.org/wikipedia/en/0/05/Gone_Girl_Poster.jpg"
      "https://www.youtube.com/watch?v=2-_-1nJf8Vg",
    .assignList "movies"
      ["toy_story", "avatar", "rurouni_kenshin", "hunger_games", "taken", "gone_girl"],
    .callOpenMoviesPage "movies" ]

/-- The empty initial state of the module run. -/
def initState : PyState := ⟨[], [], [], 0⟩

/-- The result of running `entertainment_center.py` to completion. -/
def runResult : Except String PyState := execProgram initState entertainmentCenter

/-- The record bound to `toy_story` (source lines 4-7). -/
def toy_story : Movie :=
  ⟨"Toy Story",
   "A story of a boy and his toys that come to life",
   "http://upload.wikimedia.org/wikipedia/en/1/13/Toy_Story.jpg",
   "https://www.youtube.com/watch?v=KYz2wyBy3kc"⟩

/-- The record bound to `avatar` (source lines 9-13). -/
def avatar : Movie :=
  ⟨"Avatar",
   "A marine on an alien planet",
   "http://upload.wikimedia.org/wikipedia/en/b/b0/Avatar-Teaser-Poster.jpg",
   "https://www.youtube.com/watch?v=cRdxXPV9GNQ"⟩

/-- The record bound to `rurouni_kenshin` (source lines 15-19). -/
def rurouni_kenshin : Movie :=
  ⟨"Rurouni Kenshin",
   "The story of a wanderer named Himura Kenshin, formerly known as the assassin Hitokiri Battosai",
   "http://upload.wikimedia.org/wikipedia/en/f/f6/Rurouni_Kenshin_%282012_film%29_poster.jpg",
   "https://www.youtube.com/watch?v=lc_JmcRxdx8"⟩

/-- The record bound to `hunger_games` (source lines 21-25). -/
def hunger_games : Movie :=
  ⟨"The Hunger Games",
   "A real reality show",
   "http://upload.wikimedia.org/wikipedia/en/4/42/HungerGamesPoster.jpg",
   "https://www.youtube.com/watch?v=4S9a5V9ODuY"⟩

/-- The record bound to `taken` (source lines 27-31). -/
def taken : Movie :=
  ⟨"Taken",
   "A former CIA operative named Bryan Mills who sets about tracking down his daughter after she is kidnapped by human traffickers for sexual slavery while travelling in France",
   "http://upload.wikimedia.org/wikipedia/en/e/ed/Taken_film_poster.jpg",
   "https://www.youtube.com/watch?v=wCbDUREBwUg"⟩

/-- The record bound to `gone_girl` (source lines 33-37). -/
def gone_girl : Movie :=
  ⟨"Gone Girl",
   "A mystery about a man whose wife has gone missing and the events after",
   "http://upload.wikimedia.org/wikipedia/en/0/05/Gone_Girl_Poster.jpg",
   "https://www.youtube.com/watch?v=2-_-1nJf8Vg"⟩

/-- The list `movies` of source line 39, as record values. -/
def movies : List Movie :=
  [toy_story, avatar, rurouni_kenshin, hunger_games, taken, gone_girl]

/-- The sequence of record values passed to the renderer by the single call
of the run, or `[]` if the run errored or the renderer was not called
exactly once. -/
def renderedSeq : List Movie :=
  match runResult with
  | .ok s =>
      match s.rendererCalls with
      | [call] => call.map Obj.val
      | _ => []
  | .error _ => []

/-- All record values constructed during the run (every movie variable
binding), or `[]` if the run errored. -/
def allConstructed : List Movie :=
  match runResult with
  | .ok s => s.env.map fun p => p.2.val
  | .error _ => []

/-- The record value bound to a given variable name in the final state of
the run, if the run succeeded and the name is bound. -/
def finalBinding (n : String) : Option Movie :=
  match runResult with
  | .ok s => (List.lookup n s.env).map Obj.val
  | .error _ => none

/-- Boolean test that `s` starts with `p`, character by character. -/
def strStarts (p s : String) : Bool :=
  s.data.take p.data.length == p.data

/-- Follows the spec's words (§4.1, §9): a single constructor taking the
four required fields (title, storyline, poster image URL, trailer URL) in
that order. -/
def mkMovieSpec (title storyline poster_image_url trailer_youtube_url : String) : Movie :=
  { title := title, storyline := storyline,
    poster_image_url := poster_image_url,
    trailer_youtube_url := trailer_youtube_url }

/-- The four positional string arguments of a movie construction statement,
in source order; `none` for the other statement forms. -/
def movieArgs : Stmt → Option (String × String × String × String)
  | .assignMovie _ t s p y => some (t, s, p, y)
  | _ => none

/-- C1: the six-element sequence passed to the renderer preserves authoring
order — its elements are, in order, the records for Toy Story, Avatar,
Rurouni Kenshin, The Hunger Games, Taken, and Gone Girl, and no other
records. -/
theorem c1_render_order :
    runResult.map (fun s => s.rendererCalls.map fun call => call.map Obj.val)
        = Except.ok [movies] ∧
    movies = [toy_story, avatar, rurouni_kenshin, hunger_games, taken, gone_girl] :=
  ⟨rfl, rfl⟩

/-- C2: the record constructed from the four Toy Story input strings exposes
exactly those four field values, is the first element of the six-element
rendered sequence, and the renderer entry point is invoked exactly once with
that sequence. -/
theorem c2_end_to_end :
    toy_story = Movie.mk "Toy Story"
      "A story of a boy and his toys that come to life"
      "http://upload.wikimedia.org/wikipedia/en/1/13/Toy_Story.jpg"
      "https://www.youtube.com/watch?v=KYz2wyBy3kc" ∧
    toy_story.title = "Toy Story" ∧
    toy_story.storyline = "A story of a boy and his toys that come to life" ∧
    toy_story.poster_image_url
      = "http://upload.wikimedia.org/wikipedia/en/1/13/Toy_Story.jpg" ∧
    toy_story.trailer_youtube_url = "https://www.youtube.com/watch?v=KYz2wyBy3kc" ∧
    renderedSeq.head? = some toy_story ∧
    renderedSeq.length = 6 ∧
    runResult.map (fun s => s.rendererCalls.map fun call => call.map Obj.val)
      = Except.ok [renderedSeq] :=
  ⟨rfl, rfl, rfl, rfl, rfl, rfl, rfl, rfl⟩

/-- C3: each of the six records constructed by the program exposes exactly
the four field values given verbatim in the source (shown here inline), and
the assignment of each input string to its field is the same on every
construction of the modelled constructor. -/
theorem c3_verbatim_fields :
    finalBinding "toy_story" = some (Movie.mk "Toy Story"
      "A story of a boy and his toys that come to life"
      "http://upload.wikimedia.org/wikipedia/en/1/13/Toy_Story.jpg"
      "https://www.youtube.com/watch?v=KYz2wyBy3kc") ∧
    finalBinding "avatar" = some (Movie.mk "Avatar"
      "A marine on an alien planet"
      "http://upload.wikimedia.org/wikipedia/en/b/b0/Avatar-Teaser-Poster.jpg"
      "https://www.youtube.com/watch?v=cRdxXPV9GNQ") ∧
    finalBinding "rurouni_kenshin" = some (Movie.mk "Rurouni Kenshin"
      "The story of a wanderer named Himura Kenshin, formerly known as the assassin Hitokiri Battosai"
      "http://upload.wikimedia.org/wikipedia/en/f/f6/Rurouni_Kenshin_%282012_film%29_poster.jpg"
      "https://www.youtube.com/watch?v=lc_JmcRxdx8") ∧
    finalBinding "hunger_games" = some (Movie.mk "The Hunger Games"
      "A real reality show"
      "http://upload.wikimedia.org/wikipedia/en/4/42/HungerGamesPoster.jpg"
      "https://www.youtube.com/watch?v=4S9a5V9ODuY") ∧
    finalBinding "taken" = some (Movie.mk "Taken"
      "A former CIA operative named Bryan Mills who sets about tracking down his daughter after she is kidnapped by human traffickers for sexual slavery while travelling in France"
      "http://upload.wikimedia.org/wikipedia/en/e/ed/Taken_film_poster.jpg"
      "https://www.youtube.com/watch?v=wCbDUREBwUg") ∧
    finalBinding "gone_girl" = some (Movie.mk "Gone Girl"
      "A mystery about a man whose wife has gone missing and the events after"
      "http://upload.wikimedia.org/wikipedia/en/0/05/Gone_Girl_Poster.jpg"
      "https://www.youtube.com/watch?v=2-_-1nJf8Vg") ∧
    ∀ t s p y, (Movie.mk t s p y).title = t ∧ (Movie.mk t s p y).storyline = s ∧
      (Movie.mk t s p y).poster_image_url = p ∧
      (Movie.mk t s p y).trailer_youtube_url = y :=
  ⟨by decide, by decide, by decide, by decide, by decide, by decide,
   fun t s p y => ⟨rfl, rfl, rfl, rfl⟩⟩

/-- C4: every Movie record constructed by the program has all four fields
present as non-empty strings. -/
theorem c4_nonempty (m : Movie) (h : m ∈ allConstructed) :
    m.title ≠ "" ∧ m.storyline ≠ "" ∧
      m.poster_image_url ≠ "" ∧ m.trailer_youtube_url ≠ "" := by
  have hall : allConstructed
      = [gone_girl, taken, hunger_games, rurouni_kenshin, avatar, toy_story] := by
    decide
  rw [hall] at h
  fin_cases h <;> decide

/-- C4 witness: the Toy Story record, constructed by the program, has all
four fields non-empty. -/
theorem c4_nonempty_witness :
    toy_story.title ≠ "" ∧ toy_story.storyline ≠ "" ∧
      toy_story.poster_image_url ≠ "" ∧ toy_story.trailer_youtube_url ≠ "" :=
  c4_nonempty toy_story (by decide)

/-- C5: constructing a Movie record performs no validation, has no side
effects and no error outcome — from any state, binding any four strings
succeeds, returning the state extended only with the new binding (the
renderer trace in particular is untouched) — and in the actual run all six
literal constructions succeed and the run completes without error. -/
theorem c5_no_validation :
    (∀ st n t s p y, execStmt st (Stmt.assignMovie n t s p y) =
        Except.ok { st with env := (n, ⟨st.nextId, Movie.mk t s p y⟩) :: st.env,
                            nextId := st.nextId + 1 }) ∧
    (∀ st n t s p y,
        (execStmt st (Stmt.assignMovie n t s p y)).map PyState.rendererCalls
          = Except.ok st.rendererCalls) ∧
    allConstructed.length = 6 ∧
    runResult.isOk = true :=
  ⟨fun _ _ _ _ _ _ => rfl, fun _ _ _ _ _ _ => rfl, by decide, by decide⟩

/-- C6: constructing a Movie twice from the same four input strings yields
two independent records (distinct allocation identities) that are
value-equal on all four fields. -/
theorem c6_value_equal_independent (st : PyState) (n₁ n₂ t s p y : String) :
    ∃ o₁ o₂ : Obj,
      execProgram st [Stmt.assignMovie n₁ t s p y, Stmt.assignMovie n₂ t s p y]
          = Except.ok { st with env := (n₂, o₂) :: (n₁, o₁) :: st.env,
                                nextId := st.nextId + 2 } ∧
      o₁.id ≠ o₂.id ∧ o₁.val = o₂.val ∧ o₁.val = Movie.mk t s p y := by
  refine ⟨⟨st.nextId, Movie.mk t s p y⟩, ⟨st.nextId + 1, Movie.mk t s p y⟩,
    rfl, ?_, rfl, rfl⟩
  exact Nat.ne_of_lt (Nat.lt_succ_self st.nextId)

/-- C7: each of the six records is created exactly once (allocation ids 0
through 5, six allocations in total) and is never mutated afterward: the
objects handed to the single rendering call still carry their
construction-time field values, as do the final variable bindings. -/
theorem c7_no_mutation :
    runResult.map (fun s => s.rendererCalls)
        = Except.ok [[⟨0, toy_story⟩, ⟨1, avatar⟩, ⟨2, rurouni_kenshin⟩,
                      ⟨3, hunger_games⟩, ⟨4, taken⟩, ⟨5, gone_girl⟩]] ∧
    runResult.map (fun s => s.nextId) = Except.ok 6 ∧
    runResult.map (fun s => s.env)
        = Except.ok [("gone_girl", ⟨5, gone_girl⟩), ("taken", ⟨4, taken⟩),
                     ("hunger_games", ⟨3, hunger_games⟩),
                     ("rurouni_kenshin", ⟨2, rurouni_kenshin⟩),
                     ("avatar", ⟨1, avatar⟩), ("toy_story", ⟨0, toy_story⟩)] :=
  ⟨rfl, rfl, rfl⟩

/-- C8: in every record constructed by the program, the poster image URL
starts with the Wikimedia upload stem and the trailer URL starts with the
YouTube watch stem. -/
theorem c8_url_shapes (m : Movie) (h : m ∈ allConstructed) :
    strStarts "http://upload.wikimedia.org/wikipedia/en/" m.poster_image_url = true ∧
    strStarts "https://www.youtube.com/watch?v=" m.trailer_youtube_url = true := by
  have hall : allConstructed
      = [gone_girl, taken, hunger_games, rurouni_kenshin, avatar, toy_story] := by
    decide
  rw [hall] at h
  fin_cases h <;> decide

/-- C8 witness: the Toy Story record has both URL stems. -/
theorem c8_url_shapes_witness :
    strStarts "http://upload.wikimedia.org/wikipedia/en/" toy_story.poster_image_url = true ∧
    strStarts "https://www.youtube.com/watch?v=" toy_story.trailer_youtube_url = true :=
  c8_url_shapes toy_story (by decide)

/-- C9: the six rendered records have pairwise distinct titles, poster URLs
and trailer URLs, and the sequence passed to the renderer contains no
duplicate records. -/
theorem c9_no_duplicates :
    (renderedSeq.map Movie.title).Nodup ∧
    (renderedSeq.map Movie.poster_image_url).Nodup ∧
    (renderedSeq.map Movie.trailer_youtube_url).Nodup ∧
    renderedSeq.Nodup := by
  refine ⟨by decide, by decide, by decide, by decide⟩

/-- C10: every one of the six constructions in the source passes exactly
four positional string arguments in the order (title, storyline, poster
image URL, trailer URL), so the spec's single four-field constructor,
applied to those argument tuples in authoring order, reproduces all six
records — exactly the records the renderer receives. -/
theorem c10_positional_refinement :
    (∀ t s p y, Movie.mk t s p y = mkMovieSpec t s p y) ∧
    (entertainmentCenter.filterMap movieArgs).length = 6 ∧
    (entertainmentCenter.filterMap movieArgs).map
        (fun a => mkMovieSpec a.1 a.2.1 a.2.2.1 a.2.2.2) = movies ∧
    renderedSeq = movies :=
  ⟨fun _ _ _ _ => rfl, by decide, by decide, by decide⟩
